import Mathlib

/-!
# barcode-scan-mod: USB scanner resolution and mode-aware read

A shallow embedding of `usb.go` (package `usb`): the mode table
(`determineMode`), the device catalogue (`GetUsbDevices`), the endpoint walk
(`GetScanner`) and the mode-dependent read (`Scanner.Read`).

The host USB stack (package `gousb`) is an external collaborator.  Its
descriptor types are reproduced with the fields `usb.go` touches, and its
operations (open, string lookup, transfer) are data carried by the model, so
every theorem quantifies over all behaviours of the transport.

Conventions
* a Go result `(T, error)` is a pair `Option T × Option GoError`; `none` is `nil`;
* a Go `int` that is only copied or compared is an `Int`; sizes and byte
  counts are `Nat`; `uint8` and `uint16` codes compared with constants are `Nat`;
* a run of a function is an `Outcome`: it returns, it panics (nil dereference,
  slice bound), or it is still looping when the iteration budget ends.
-/

/-- A Go `error` value, identified by its message. -/
structure GoError where
  msg : String
deriving DecidableEq, Repr

/-- The error built by `fmt.Errorf(msg)`. -/
def fmtErrorf (msg : String) : GoError := ⟨msg⟩

/-- How a call ends. -/
inductive Outcome (α : Type) where
  /-- The call returned `a`. -/
  | ret (a : α)
  /-- The call ended in a run-time panic. -/
  | panic
  /-- The loop was still running after the given number of iterations. -/
  | running
deriving DecidableEq, Repr

abbrev Byte := Nat

namespace gousb

/-- The type `gousb.ID`, a 16-bit vendor or product identifier. -/
abbrev ID := Nat
/-- The type `gousb.Class`, a `uint8` class or subclass code. -/
abbrev Class := Nat
/-- The type `gousb.Protocol`, a `uint8` protocol code. -/
abbrev Protocol := Nat

/-- The type `gousb.EndpointDirection`: `EndpointDirectionIn` is device-to-host. -/
inductive EndpointDirection where
  | In
  | Out
deriving DecidableEq, Repr

/-- The type `gousb.EndpointDesc`, the fields read by `usb.go`.  `MaxPacketSize` comes
from the unsigned `wMaxPacketSize` descriptor field. -/
structure EndpointDesc where
  Number : Int
  Direction : EndpointDirection
  MaxPacketSize : Nat
deriving DecidableEq, Repr

/-- The type `gousb.InterfaceSetting`: one alternate setting of an interface.  In gousb
`Number` is "the number of this interface, the same as in InterfaceDesc" and
`Alternate` is "the number of this alternate setting".  `Endpoints` is declared
`map[EndpointAddress]EndpointDesc`; the list is the order in which one `range`
statement visits the map. -/
structure InterfaceSetting where
  Number : Int
  Alternate : Int
  Class : gousb.Class
  SubClass : gousb.Class
  Protocol : gousb.Protocol
  Endpoints : List EndpointDesc
deriving DecidableEq, Repr

/-- The type `gousb.InterfaceDesc`: an interface and its alternate settings (a slice). -/
structure InterfaceDesc where
  Number : Int
  AltSettings : List InterfaceSetting
deriving DecidableEq, Repr

/-- The type `gousb.ConfigDesc`: a configuration and its interfaces (a slice). -/
structure ConfigDesc where
  Number : Int
  Interfaces : List InterfaceDesc
deriving DecidableEq, Repr

/-- The type `gousb.DeviceDesc`.  `Configs` is declared `map[int]ConfigDesc`; the list
is the order in which one `range` statement visits the map. -/
structure DeviceDesc where
  Bus : Int
  Address : Int
  Port : Int
  Speed : Int
  Vendor : ID
  Product : ID
  Class : gousb.Class
  SubClass : gousb.Class
  Protocol : gousb.Protocol
  Configs : List ConfigDesc
deriving DecidableEq, Repr

/-- What one call `ep.Read(buf)` does: the byte count `n` it reports, the bytes
`data` it stores at the start of `buf`, and the error. -/
structure Transfer where
  n : Nat
  data : List Byte
  err : Option GoError
deriving DecidableEq, Repr

/-- The buffer after a transfer stored `data` at its start; its length is kept. -/
def store (buf data : List Byte) : List Byte :=
  (data ++ buf.drop data.length).take buf.length

/-- The type `gousb.InEndpoint`: an opened inbound endpoint.  `Read k len` is
the transfer performed by call number `k` (counted from 0 within one
`Scanner.Read`) when handed a buffer of `len` bytes. -/
structure InEndpoint where
  Desc : EndpointDesc
  Read : Nat → Nat → Transfer

/-- The type `gousb.Interface`: a claimed interface; `InEndpoint epNum`. -/
structure Interface where
  InEndpoint : Int → Option InEndpoint × Option GoError

/-- The type `gousb.Config`: an opened configuration; `Interface num alt`. -/
structure Config where
  Interface : Int → Int → Option Interface × Option GoError

/-- The type `gousb.Device`: an opened device.  `handle` identifies the open handle;
`Manufacturer`, `Product` and `SerialNumber` are the results of the three
string-descriptor lookups; `Config cfgNum` opens a configuration. -/
structure Device where
  handle : Nat
  autodetach : Bool
  Desc : DeviceDesc
  Manufacturer : String × Option GoError
  Product : String × Option GoError
  SerialNumber : String × Option GoError
  Config : Int → Option Config × Option GoError

/-- The method `Device.SetAutoDetach(b)`. -/
def Device.SetAutoDetach (d : Device) (b : Bool) : Device :=
  { d with autodetach := b }

/-- The type `gousb.Context`: the host USB stack.  The first three fields are what the
three open operations answer; `opened` lists the handles currently open. -/
structure Context where
  OpenDevices : List Device × Option GoError
  OpenDeviceWithVIDPID : ID → ID → Option Device × Option GoError
  OpenDeviceWithVIDPIDSerial : ID → ID → String → Option Device × Option GoError
  opened : List Nat

/-- A device handed out by an open operation is open from then on. -/
def Context.noteOpen (ctx : Context) (d : Device) : Context :=
  { ctx with opened := d.handle :: ctx.opened }

/-- Every device of `ds` handed out by `OpenDevices`, first device outermost. -/
def Context.noteOpenAll (ctx : Context) (ds : List Device) : Context :=
  { ctx with opened := ds.map (fun d => d.handle) ++ ctx.opened }

/-- The method `Device.Close()`: the handle is open no more. -/
def Device.Close (d : Device) (ctx : Context) : Context :=
  { ctx with opened := ctx.opened.erase d.handle }

end gousb

namespace usb

set_option linter.dupNamespace false

open gousb (EndpointDirection EndpointDesc InterfaceSetting InterfaceDesc ConfigDesc)

/-- The declaration `type ScannerMode uint8`. -/
abbrev ScannerMode := Nat

def ScannerModeUnknown : ScannerMode := 0
def ScannerModeHIDKeyboardEmulation : ScannerMode := 1
def ScannerModeHIDDevice : ScannerMode := 2
def ScannerModeCOMEmulation : ScannerMode := 3

/-- The struct `ScannerInfo`: extended information of a scanner. -/
structure ScannerInfo where
  Config : Int := 0
  Interface : Int := 0
  Setup : Int := 0
  Endpoint : Int := 0
  Class : gousb.Class := 0
  SubClass : gousb.Class := 0
  Protocol : gousb.Protocol := 0
  MaxPacketSize : Nat := 0
  Mode : ScannerMode := 0
deriving DecidableEq, Repr

/-- The struct `Scanner`: the embedded `*gousb.Device` (possibly nil) and the info. -/
structure Scanner where
  Device : Option gousb.Device := none
  Info : ScannerInfo := {}

/-- The method `func (di *ScannerInfo) determineMode()`: three independent `if`s after
the reset to `ScannerModeUnknown`. -/
def ScannerInfo.determineMode (di : ScannerInfo) : ScannerInfo :=
  let di := { di with Mode := ScannerModeUnknown }
  let di := if di.Class = 3 ∧ di.SubClass = 1 ∧ di.Protocol = 1
    then { di with Mode := ScannerModeHIDKeyboardEmulation } else di
  let di := if di.Class = 3 ∧ di.SubClass = 0 ∧ di.Protocol = 0
    then { di with Mode := ScannerModeHIDDevice } else di
  let di := if di.Class = 2 ∧ di.SubClass = 2 ∧ di.Protocol = 1
    then { di with Mode := ScannerModeCOMEmulation } else di
  di

/-- The struct `DeviceDesc` of package `usb`: the three strings and the
embedded `gousb.DeviceDesc`. -/
structure DeviceDesc where
  ManufacturerDesc : String := ""
  ProductDesc : String := ""
  Serial : String := ""
  DeviceDesc : gousb.DeviceDesc
deriving DecidableEq, Repr

/-- One pass of the second loop of `GetUsbDevices`: build `dd` from the three
lookups (errors dropped) and the descriptor, append it, close the device. -/
def catalogStep (acc : List DeviceDesc × gousb.Context) (d : gousb.Device) :
    List DeviceDesc × gousb.Context :=
  let dd : DeviceDesc :=
    { ManufacturerDesc := d.Manufacturer.1
      ProductDesc := d.Product.1
      Serial := d.SerialNumber.1
      DeviceDesc := d.Desc }
  (acc.1 ++ [dd], d.Close acc.2)

/-- The function `GetUsbDevices(ctx)`: the returned `([]DeviceDesc, error)` and
the context afterwards. -/
def GetUsbDevices (ctx : gousb.Context) :
    (List DeviceDesc × Option GoError) × gousb.Context :=
  let devList : List DeviceDesc := []
  let devs := ctx.OpenDevices.1
  let err := ctx.OpenDevices.2
  let ctx := ctx.noteOpenAll devs
  if err ≠ none then
    let ctx := devs.foldl (fun c d => d.Close c) ctx
    ((devList, err), ctx)
  else
    let r := devs.foldl catalogStep (devList, ctx)
    ((r.1, none), r.2)

/-- The body of the innermost `if` of `GetScanner`: fill `retScan` from the
four loop variables and derive the mode. -/
def bindScanner (dev : gousb.Device) (cfg : ConfigDesc) (alt : InterfaceDesc)
    (iface : InterfaceSetting) (e : EndpointDesc) : Scanner :=
  let info : ScannerInfo :=
    { Config := cfg.Number
      Interface := alt.Number
      Setup := iface.Number
      Endpoint := e.Number
      Class := iface.Class
      SubClass := iface.SubClass
      Protocol := iface.Protocol
      MaxPacketSize := e.MaxPacketSize }
  { Device := some dev, Info := info.determineMode }

/-- The loop `for _, end := range iface.Endpoints` with its early return. -/
def scanEndpoints (dev : gousb.Device) (cfg : ConfigDesc) (alt : InterfaceDesc)
    (iface : InterfaceSetting) : List EndpointDesc → Option Scanner
  | [] => none
  | e :: rest =>
    if e.Direction = EndpointDirection.In then some (bindScanner dev cfg alt iface e)
    else scanEndpoints dev cfg alt iface rest

/-- The loop `for _, iface := range alt.AltSettings`. -/
def scanAltSettings (dev : gousb.Device) (cfg : ConfigDesc) (alt : InterfaceDesc) :
    List InterfaceSetting → Option Scanner
  | [] => none
  | iface :: rest =>
    match scanEndpoints dev cfg alt iface iface.Endpoints with
    | some s => some s
    | none => scanAltSettings dev cfg alt rest

/-- The loop `for _, alt := range cfg.Interfaces`. -/
def scanInterfaces (dev : gousb.Device) (cfg : ConfigDesc) :
    List InterfaceDesc → Option Scanner
  | [] => none
  | alt :: rest =>
    match scanAltSettings dev cfg alt alt.AltSettings with
    | some s => some s
    | none => scanInterfaces dev cfg rest

/-- The loop `for _, cfg := range dev.Desc.Configs`. -/
def scanConfigs (dev : gousb.Device) : List ConfigDesc → Option Scanner
  | [] => none
  | cfg :: rest =>
    match scanInterfaces dev cfg cfg.Interfaces with
    | some s => some s
    | none => scanConfigs dev rest

/-- The open call chosen by `GetScanner`: by VID/PID when `Serial` is empty,
by VID/PID/serial otherwise. -/
def openFor (ctx : gousb.Context) (Vendor Product : gousb.ID) (Serial : String) :
    Option gousb.Device × Option GoError :=
  if Serial = "" then ctx.OpenDeviceWithVIDPID Vendor Product
  else ctx.OpenDeviceWithVIDPIDSerial Vendor Product Serial

/-- The function `GetScanner(ctx, Vendor, Product, Serial)`: the returned
`(*Scanner, error)` and the context afterwards.  No path closes the device. -/
def GetScanner (ctx : gousb.Context) (Vendor Product : gousb.ID) (Serial : String) :
    Outcome (Option Scanner × Option GoError) × gousb.Context :=
  let r := openFor ctx Vendor Product Serial
  let ctx := match r.1 with
    | some d => ctx.noteOpen d
    | none => ctx
  match r.2 with
  | some err => (Outcome.ret (none, some err), ctx)
  | none =>
    match r.1 with
    | none => (Outcome.panic, ctx)
    | some dev =>
      let dev := dev.SetAutoDetach true
      match scanConfigs dev dev.Desc.Configs with
      | some s => (Outcome.ret (some s, none), ctx)
      | none => (Outcome.ret (some {}, some (fmtErrorf "")), ctx)

/-- A run of `Scanner.Read`: how it ended, and the length of the buffer handed
to each `ep.Read` call, in call order. -/
structure ReadRun where
  out : Outcome (Option (List Byte) × Option GoError)
  transfers : List Nat
deriving DecidableEq, Repr

/-- The final `return buf[:readBytes], nil`; slicing past the buffer panics. -/
def sliceReturn (buf : List Byte) (readBytes : Nat) (tr : List Nat) : ReadRun :=
  if readBytes ≤ buf.length then ⟨Outcome.ret (some (buf.take readBytes), none), tr⟩
  else ⟨Outcome.panic, tr⟩

/-- The `for` loop of the keyboard-emulation branch, run for at most `fuel`
iterations; `k` transfers were made before and `tr` is their trace. -/
def readLoop (ep : gousb.InEndpoint) : Nat → Nat → List Byte → List Nat → ReadRun
  | 0, _, _, tr => ⟨Outcome.running, tr⟩
  | fuel + 1, k, buf, tr =>
    let t := ep.Read k buf.length
    let tr := tr ++ [buf.length]
    if t.err ≠ none then ⟨Outcome.ret (none, t.err), tr⟩
    else if t.n = 0 then
      ⟨Outcome.ret (none, some (fmtErrorf "read returned 0 bytes of data")), tr⟩
    else readLoop ep fuel (k + 1) (gousb.store buf t.data) tr

/-- Lines 187-211 of `Scanner.Read`, once the endpoint `ep` is open: allocate
the buffer and read as the mode says. -/
def readFrom (Mode : ScannerMode) (ep : gousb.InEndpoint) (fuel : Nat) : ReadRun :=
  let buf : List Byte := List.replicate ep.Desc.MaxPacketSize 0
  if Mode = ScannerModeHIDDevice then
    let t := ep.Read 0 buf.length
    if t.err ≠ none then ⟨Outcome.ret (none, t.err), [buf.length]⟩
    else if t.n = 0 then
      ⟨Outcome.ret (none, some (fmtErrorf "read returned 0 bytes of data")), [buf.length]⟩
    else sliceReturn (gousb.store buf t.data) t.n [buf.length]
  else if Mode = ScannerModeHIDKeyboardEmulation then
    readLoop ep fuel 0 buf []
  else sliceReturn buf 0 []

/-- The method `func (s *Scanner) Read() ([]byte, error)`.  Only the error of
the last of the three open calls is tested; a nil receiver panics. -/
def Scanner.Read (s : Scanner) (fuel : Nat) : ReadRun :=
  match s.Device with
  | none => ⟨Outcome.panic, []⟩
  | some dev =>
    match (dev.Config s.Info.Config).1 with
    | none => ⟨Outcome.panic, []⟩
    | some cfg =>
      match (cfg.Interface s.Info.Interface s.Info.Setup).1 with
      | none => ⟨Outcome.panic, []⟩
      | some intf =>
        match intf.InEndpoint s.Info.Endpoint with
        | (_, some err) => ⟨Outcome.ret (none, some err), []⟩
        | (none, none) => ⟨Outcome.panic, []⟩
        | (some ep, none) => readFrom s.Info.Mode ep fuel

/-- The three open calls at the head of `Scanner.Read` hand out `ep`. -/
def Scanner.opensEndpoint (s : Scanner) (ep : gousb.InEndpoint) : Prop :=
  ∃ dev cfg intf, s.Device = some dev ∧ (dev.Config s.Info.Config).1 = some cfg ∧
    (cfg.Interface s.Info.Interface s.Info.Setup).1 = some intf ∧
    intf.InEndpoint s.Info.Endpoint = (some ep, none)

/-! ### Nested traversal order, stated apart from the loops -/

/-- An endpoint together with the configuration, interface and alternate
setting that own it. -/
structure Slot where
  cfg : ConfigDesc
  alt : InterfaceDesc
  iface : InterfaceSetting
  ep : EndpointDesc
deriving DecidableEq, Repr

/-- Slots of one alternate setting, endpoints in visiting order. -/
def slotsOfSetting (cfg : ConfigDesc) (alt : InterfaceDesc) (iface : InterfaceSetting) :
    List Slot :=
  iface.Endpoints.map (fun e => Slot.mk cfg alt iface e)

/-- Slots of one interface: alternate settings in order, then endpoints. -/
def slotsOfInterface (cfg : ConfigDesc) (alt : InterfaceDesc) : List Slot :=
  alt.AltSettings.flatMap (slotsOfSetting cfg alt)

/-- Slots of one configuration: interfaces, then settings, then endpoints. -/
def slotsOfConfig (cfg : ConfigDesc) : List Slot :=
  cfg.Interfaces.flatMap (slotsOfInterface cfg)

/-- Every endpoint of the tree in nested traversal order: configurations,
then interfaces, then alternate settings, then endpoints. -/
def traversal (d : gousb.DeviceDesc) : List Slot :=
  d.Configs.flatMap slotsOfConfig

/-- Direction device-to-host. -/
def Slot.inbound (x : Slot) : Bool :=
  decide (x.ep.Direction = EndpointDirection.In)

/-- The scanner `GetScanner` builds when it stops at slot `x`. -/
def Slot.scanner (dev : gousb.Device) (x : Slot) : Scanner :=
  bindScanner dev x.cfg x.alt x.iface x.ep

/-- The (config, interface, alt-setting, endpoint) tuple of a binding. -/
def ScannerInfo.tuple (i : ScannerInfo) : Int × Int × Int × Int :=
  (i.Config, i.Interface, i.Setup, i.Endpoint)

/-- What a successful `GetScanner` bound: the tuple of its `Info`. -/
def resolvedTuple (r : Outcome (Option Scanner × Option GoError) × gousb.Context) :
    Option (Int × Int × Int × Int) :=
  match r.1 with
  | Outcome.ret (some s, none) => some s.Info.tuple
  | _ => none

/-- What a successful `GetScanner` bound: its `Info`. -/
def resolvedInfo (r : Outcome (Option Scanner × Option GoError) × gousb.Context) :
    Option ScannerInfo :=
  match r.1 with
  | Outcome.ret (some s, none) => some s.Info
  | _ => none

/-- Two alternate settings that differ at most in the order in which their
endpoint map is visited. -/
def sameSetting (a b : InterfaceSetting) : Prop :=
  a.Number = b.Number ∧ a.Alternate = b.Alternate ∧ a.Class = b.Class ∧
    a.SubClass = b.SubClass ∧ a.Protocol = b.Protocol ∧ a.Endpoints.Perm b.Endpoints

/-- Two interfaces with the same number and pairwise the same settings. -/
def sameInterface (a b : InterfaceDesc) : Prop :=
  a.Number = b.Number ∧ List.Forall₂ sameSetting a.AltSettings b.AltSettings

/-- Two configurations with the same number and pairwise the same interfaces. -/
def sameConfig (a b : ConfigDesc) : Prop :=
  a.Number = b.Number ∧ List.Forall₂ sameInterface a.Interfaces b.Interfaces

/-- Two visits of one descriptor tree: slices are met in the same order, the two
maps (`Configs`, `Endpoints`) possibly in another order. -/
def sameTree (a b : gousb.DeviceDesc) : Prop :=
  a.Vendor = b.Vendor ∧ a.Product = b.Product ∧
    ∃ l, l.Perm a.Configs ∧ List.Forall₂ sameConfig l b.Configs

/-! ### Sample devices -/

/-- A device with descriptor `desc` and handle 7; its strings are empty and
none of its configurations opens. -/
def deviceOf (desc : gousb.DeviceDesc) : gousb.Device :=
  { handle := 7
    autodetach := false
    Desc := desc
    Manufacturer := ("", none)
    Product := ("", none)
    SerialNumber := ("", none)
    Config := fun _ => (none, some ⟨"no such configuration"⟩) }

/-- A host with the single device `dev` attached and no handle open. -/
def hostOf (dev : gousb.Device) : gousb.Context :=
  { OpenDevices := ([dev], none)
    OpenDeviceWithVIDPID := fun _ _ => (some dev, none)
    OpenDeviceWithVIDPIDSerial := fun _ _ _ => (some dev, none)
    opened := [] }

/-- A device descriptor of vendor 0x0c2e with the given configurations. -/
def descOf (Product : gousb.ID) (cfgs : List ConfigDesc) : gousb.DeviceDesc :=
  { Bus := 1, Address := 2, Port := 1, Speed := 2, Vendor := 0x0c2e, Product := Product,
    Class := 0, SubClass := 0, Protocol := 0, Configs := cfgs }

/-- Inbound endpoint number `n` with 64-byte packets. -/
def epIn (n : Int) : EndpointDesc := ⟨n, EndpointDirection.In, 64⟩

/-- Outbound endpoint number `n` with 64-byte packets. -/
def epOut (n : Int) : EndpointDesc := ⟨n, EndpointDirection.Out, 64⟩

/-- A keyboard-emulation scanner: interface 0, setting 0 of class (3, 1, 1)
with one inbound endpoint of 64 bytes. -/
def keyboardDesc : gousb.DeviceDesc :=
  descOf 0x0a01 [⟨1, [⟨0, [⟨0, 0, 3, 1, 1, [epIn 1]⟩]⟩]⟩]

/-- A device with no configuration at all. -/
def emptyDesc : gousb.DeviceDesc := descOf 0x0a07 []

/-- A device whose only endpoints are outbound. -/
def outOnlyDesc : gousb.DeviceDesc :=
  descOf 0x0a07 [⟨1, [⟨0, [⟨0, 0, 3, 0, 0, [epOut 1, epOut 2]⟩]⟩]⟩]

/-- A setting with two inbound endpoints, visited 1 then 2. -/
def twoInDescA : gousb.DeviceDesc :=
  descOf 0x0a07 [⟨1, [⟨0, [⟨0, 0, 3, 0, 0, [epIn 1, epIn 2]⟩]⟩]⟩]

/-- The same setting, its endpoint map visited 2 then 1. -/
def twoInDescB : gousb.DeviceDesc :=
  descOf 0x0a07 [⟨1, [⟨0, [⟨0, 0, 3, 0, 0, [epIn 2, epIn 1]⟩]⟩]⟩]

/-- A composite device: interface 0 (vendor class) has one outbound endpoint,
interface 1 (class (3, 1, 1)) has alternate setting 0 with inbound endpoint 2. -/
def compositeDesc : gousb.DeviceDesc :=
  descOf 0x0a01
    [⟨1, [⟨0, [⟨0, 0, 255, 0, 0, [epOut 1]⟩]⟩, ⟨1, [⟨1, 0, 3, 1, 1, [epIn 2]⟩]⟩]⟩]

/-- A device with one configuration.  Interface 0 has alternate setting 0 with
two outbound endpoints and alternate setting 1 with an outbound endpoint
followed by inbound endpoints 2 and 3; interface 1 has inbound endpoint 4. -/
def mixedDesc : gousb.DeviceDesc :=
  descOf 0x0a07
    [⟨1, [⟨0, [⟨0, 0, 3, 0, 0, [epOut 1, epOut 2]⟩,
               ⟨0, 1, 3, 0, 0, [epOut 1, epIn 2, epIn 3]⟩]⟩,
          ⟨1, [⟨1, 0, 3, 0, 0, [epIn 4]⟩]⟩]⟩]

/-- An opened endpoint of 64-byte packets whose transfers are `xfer`. -/
def endpointOf (xfer : Nat → Nat → gousb.Transfer) : gousb.InEndpoint :=
  { Desc := epIn 1, Read := xfer }

/-- A scanner in mode `Mode` bound to configuration 1, interface 0, setting 0,
endpoint 1, all of which open and hand out `ep`. -/
def scannerOn (Mode : ScannerMode) (ep : gousb.InEndpoint) : Scanner :=
  { Device := some
      { handle := 7
        autodetach := true
        Desc := keyboardDesc
        Manufacturer := ("", none)
        Product := ("", none)
        SerialNumber := ("", none)
        Config := fun _ =>
          (some { Interface := fun _ _ => (some { InEndpoint := fun _ => (some ep, none) }, none) },
            none) }
    Info := { Config := 1, Interface := 0, Setup := 0, Endpoint := 1, Class := 3,
              SubClass := 0, Protocol := 0, MaxPacketSize := 64, Mode := Mode } }

/-- A transfer that delivers `data` without error. -/
def delivers (data : List Byte) : gousb.Transfer := ⟨data.length, data, none⟩

/-- A transfer that fails with error `e`. -/
def fails (e : GoError) : gousb.Transfer := ⟨0, [], some e⟩

/-- A transfer after which the keyboard-emulation loop goes round again: no
error and a non-zero byte count. -/
def goesOn (t : gousb.Transfer) : Prop := t.err = none ∧ t.n ≠ 0

instance (t : gousb.Transfer) : Decidable (goesOn t) := by
  unfold goesOn
  infer_instance

/-- The error the loop returns when it stops at transfer `t`: the error of the
transport if there is one, the zero-byte error otherwise. -/
def stopError (t : gousb.Transfer) : GoError :=
  match t.err with
  | some e => e
  | none => fmtErrorf "read returned 0 bytes of data"

/-- The catalogue entry `GetUsbDevices` builds for device `d`. -/
def entryOf (d : gousb.Device) : DeviceDesc :=
  { ManufacturerDesc := d.Manufacturer.1
    ProductDesc := d.Product.1
    Serial := d.SerialNumber.1
    DeviceDesc := d.Desc }

/-- A device like `deviceOf desc` with handle `h`, product string "Voyager"
and serial "S1", whose manufacturer lookup fails. -/
def mutedDevice (h : Nat) (desc : gousb.DeviceDesc) : gousb.Device :=
  { deviceOf desc with
    handle := h
    Manufacturer := ("", some ⟨"libusb: i/o error"⟩)
    Product := ("Voyager", none)
    SerialNumber := ("S1", none) }

/-- A host on which enumeration succeeds with two devices, the second with a
failing manufacturer lookup. -/
def twoDeviceHost : gousb.Context :=
  { hostOf (deviceOf keyboardDesc) with
    OpenDevices := ([deviceOf keyboardDesc, mutedDevice 8 twoInDescA], none) }

/-! ## Theorems -/

/-- C1. For every ScannerInfo, whatever its previous Mode, determineMode sets
Mode to HIDKeyboardEmulation for (Class, SubClass, Protocol) = (3, 1, 1), to
HIDDevice for (3, 0, 0), to COMEmulation for (2, 2, 1) and to Unknown for every
other triple; two infos with the same triple get the same Mode, and no other
field changes. -/
theorem determineMode_table (di : ScannerInfo) :
    (di.Class = 3 ∧ di.SubClass = 1 ∧ di.Protocol = 1 →
      di.determineMode.Mode = ScannerModeHIDKeyboardEmulation) ∧
    (di.Class = 3 ∧ di.SubClass = 0 ∧ di.Protocol = 0 →
      di.determineMode.Mode = ScannerModeHIDDevice) ∧
    (di.Class = 2 ∧ di.SubClass = 2 ∧ di.Protocol = 1 →
      di.determineMode.Mode = ScannerModeCOMEmulation) ∧
    (¬ (di.Class = 3 ∧ di.SubClass = 1 ∧ di.Protocol = 1) ∧
      ¬ (di.Class = 3 ∧ di.SubClass = 0 ∧ di.Protocol = 0) ∧
      ¬ (di.Class = 2 ∧ di.SubClass = 2 ∧ di.Protocol = 1) →
      di.determineMode.Mode = ScannerModeUnknown) ∧
    (∀ dj : ScannerInfo, dj.Class = di.Class → dj.SubClass = di.SubClass →
      dj.Protocol = di.Protocol → dj.determineMode.Mode = di.determineMode.Mode) ∧
    di.determineMode = { di with Mode := di.determineMode.Mode } := by
  refine ⟨?_, ?_, ?_, ?_, ?_, ?_⟩
  · rintro ⟨h1, h2, h3⟩
    simp [ScannerInfo.determineMode, h1, h2, h3]
  · rintro ⟨h1, h2, h3⟩
    simp [ScannerInfo.determineMode, h1, h2, h3]
  · rintro ⟨h1, h2, h3⟩
    simp [ScannerInfo.determineMode, h1, h2, h3]
  · rintro ⟨h1, h2, h3⟩
    simp only [ScannerInfo.determineMode]
    simp [h1, h2, h3]
  · intro dj h1 h2 h3
    simp only [ScannerInfo.determineMode, h1, h2, h3]
    split_ifs <;> rfl
  · simp only [ScannerInfo.determineMode]
    split_ifs <;> rfl

theorem scanEndpoints_eq_find (dev : gousb.Device) (cfg : ConfigDesc) (alt : InterfaceDesc)
    (iface : InterfaceSetting) (eps : List EndpointDesc) :
    scanEndpoints dev cfg alt iface eps =
      ((eps.map (fun e => Slot.mk cfg alt iface e)).find? Slot.inbound).map
        (Slot.scanner dev) := by
  induction eps with
  | nil => rfl
  | cons e rest ih =>
    by_cases h : e.Direction = EndpointDirection.In
    · simp [scanEndpoints, h, Slot.inbound, Slot.scanner]
    · simp [scanEndpoints, h, Slot.inbound, ih]

theorem scanAltSettings_eq_find (dev : gousb.Device) (cfg : ConfigDesc) (alt : InterfaceDesc)
    (l : List InterfaceSetting) :
    scanAltSettings dev cfg alt l =
      ((l.flatMap (slotsOfSetting cfg alt)).find? Slot.inbound).map (Slot.scanner dev) := by
  induction l with
  | nil => rfl
  | cons iface rest ih =>
    rw [scanAltSettings, scanEndpoints_eq_find, ih, List.flatMap_cons, List.find?_append]
    unfold slotsOfSetting
    cases (List.map (fun e => Slot.mk cfg alt iface e) iface.Endpoints).find? Slot.inbound <;> rfl

theorem scanInterfaces_eq_find (dev : gousb.Device) (cfg : ConfigDesc)
    (l : List InterfaceDesc) :
    scanInterfaces dev cfg l =
      ((l.flatMap (slotsOfInterface cfg)).find? Slot.inbound).map (Slot.scanner dev) := by
  induction l with
  | nil => rfl
  | cons alt rest ih =>
    rw [scanInterfaces, scanAltSettings_eq_find, ih, List.flatMap_cons, List.find?_append]
    unfold slotsOfInterface
    cases (alt.AltSettings.flatMap (slotsOfSetting cfg alt)).find? Slot.inbound <;> rfl

theorem scanConfigs_eq_find (dev : gousb.Device) (l : List ConfigDesc) :
    scanConfigs dev l =
      ((l.flatMap slotsOfConfig).find? Slot.inbound).map (Slot.scanner dev) := by
  induction l with
  | nil => rfl
  | cons cfg rest ih =>
    rw [scanConfigs, scanInterfaces_eq_find, ih, List.flatMap_cons, List.find?_append]
    unfold slotsOfConfig
    cases (cfg.Interfaces.flatMap (slotsOfInterface cfg)).find? Slot.inbound <;> rfl

theorem determineMode_keeps (di : ScannerInfo) :
    di.determineMode.Config = di.Config ∧ di.determineMode.Interface = di.Interface ∧
    di.determineMode.Setup = di.Setup ∧ di.determineMode.Endpoint = di.Endpoint ∧
    di.determineMode.Class = di.Class ∧ di.determineMode.SubClass = di.SubClass ∧
    di.determineMode.Protocol = di.Protocol ∧
    di.determineMode.MaxPacketSize = di.MaxPacketSize := by
  simp only [ScannerInfo.determineMode]
  split_ifs <;> simp

theorem scanner_tuple (dev : gousb.Device) (x : Slot) :
    (x.scanner dev).Info.tuple = (x.cfg.Number, x.alt.Number, x.iface.Number, x.ep.Number) := by
  simp [Slot.scanner, bindScanner, ScannerInfo.tuple, determineMode_keeps]

theorem GetScanner_of_open (ctx : gousb.Context) (V P : gousb.ID) (S : String)
    (dev : gousb.Device) (hopen : openFor ctx V P S = (some dev, none)) :
    GetScanner ctx V P S =
      (match scanConfigs (dev.SetAutoDetach true) dev.Desc.Configs with
        | some s => Outcome.ret (some s, none)
        | none => Outcome.ret (some {}, some (fmtErrorf "")),
       ctx.noteOpen dev) := by
  simp only [GetScanner, hopen, gousb.Device.SetAutoDetach]
  cases scanConfigs { dev with autodetach := true } dev.Desc.Configs <;> rfl

theorem first_inbound_split_unique (x x2 : Slot) (post post2 : List Slot) :
    ∀ pre pre2 : List Slot, pre ++ x :: post = pre2 ++ x2 :: post2 →
      (∀ y ∈ pre, y.inbound = false) → x.inbound = true →
      (∀ y ∈ pre2, y.inbound = false) → x2.inbound = true →
      pre2 = pre ∧ x2 = x := by
  intro pre
  induction pre with
  | nil =>
    intro pre2 heq _ hx hpre2 _
    cases pre2 with
    | nil =>
      simp only [List.nil_append, List.cons.injEq] at heq
      exact ⟨rfl, heq.1.symm⟩
    | cons a rest =>
      simp only [List.nil_append, List.cons_append, List.cons.injEq] at heq
      have ha := hpre2 a (List.mem_cons_self a rest)
      rw [← heq.1, hx] at ha
      cases ha
  | cons a rest ih =>
    intro pre2 heq hpre hx hpre2 hx2
    cases pre2 with
    | nil =>
      simp only [List.nil_append, List.cons_append, List.cons.injEq] at heq
      have ha := hpre a (List.mem_cons_self a rest)
      rw [heq.1, hx2] at ha
      cases ha
    | cons a2 rest2 =>
      simp only [List.cons_append, List.cons.injEq] at heq
      obtain ⟨h1, h2⟩ := ih rest2 heq.2
        (fun y hy => hpre y (List.mem_cons_of_mem a hy)) hx
        (fun y hy => hpre2 y (List.mem_cons_of_mem a2 hy)) hx2
      exact ⟨by rw [h1, heq.1], h2⟩

/-- C2 (amended). For every tree, as visited by the four nested range loops, of
a device that opens successfully and has at least one inbound endpoint,
GetScanner succeeds and binds the first inbound endpoint of the nested
traversal: the traversal splits, in exactly one way, into slots that are not
inbound, that endpoint, and the rest; the configuration number, interface
number, endpoint number and max packet size of the binding are those of that
endpoint and its owners; and every resolution, on whatever context and tree,
whose visit meets the same slot as its first inbound endpoint yields the same
binding.  What is stored as the alternate-setting coordinate is not part of
this statement. -/
theorem GetScanner_binds_first_inbound (ctx : gousb.Context) (V P : gousb.ID) (S : String)
    (dev : gousb.Device) (hopen : openFor ctx V P S = (some dev, none))
    (hin : ∃ x ∈ traversal dev.Desc, x.inbound = true) :
    ∃ (pre : List Slot) (x : Slot) (post : List Slot) (s : Scanner),
      traversal dev.Desc = pre ++ x :: post ∧
      (∀ y ∈ pre, y.inbound = false) ∧ x.inbound = true ∧
      (∀ (pre2 : List Slot) (x2 : Slot) (post2 : List Slot),
        traversal dev.Desc = pre2 ++ x2 :: post2 → (∀ y ∈ pre2, y.inbound = false) →
        x2.inbound = true → pre2 = pre ∧ x2 = x) ∧
      (GetScanner ctx V P S).1 = Outcome.ret (some s, none) ∧
      s.Info.Config = x.cfg.Number ∧ s.Info.Interface = x.alt.Number ∧
      s.Info.Endpoint = x.ep.Number ∧ s.Info.MaxPacketSize = x.ep.MaxPacketSize ∧
      (∀ (ctx2 : gousb.Context) (V2 P2 : gousb.ID) (S2 : String) (dev2 : gousb.Device),
        openFor ctx2 V2 P2 S2 = (some dev2, none) →
        (traversal dev2.Desc).find? Slot.inbound = some x →
        resolvedInfo (GetScanner ctx2 V2 P2 S2) = resolvedInfo (GetScanner ctx V P S)) := by
  obtain ⟨x0, hx0, hx0in⟩ := hin
  have hsome : ((traversal dev.Desc).find? Slot.inbound).isSome = true :=
    List.find?_isSome.2 ⟨x0, hx0, hx0in⟩
  obtain ⟨x, hx⟩ := Option.isSome_iff_exists.1 hsome
  obtain ⟨hxin, pre, post, hsplit, hpre⟩ := List.find?_eq_some.1 hx
  have hpre0 : ∀ y ∈ pre, y.inbound = false := by
    intro y hy
    simpa using hpre y hy
  have hscan : ∀ (d : gousb.Device) (cfgs : List ConfigDesc),
      (cfgs.flatMap slotsOfConfig).find? Slot.inbound = some x →
      scanConfigs d cfgs = some (x.scanner d) := by
    intro d cfgs h
    rw [scanConfigs_eq_find, h]
    rfl
  refine ⟨pre, x, post, x.scanner (dev.SetAutoDetach true), hsplit, hpre0, hxin, ?_, ?_,
    by simp [Slot.scanner, bindScanner, determineMode_keeps],
    by simp [Slot.scanner, bindScanner, determineMode_keeps],
    by simp [Slot.scanner, bindScanner, determineMode_keeps],
    by simp [Slot.scanner, bindScanner, determineMode_keeps], ?_⟩
  · intro pre2 x2 post2 hsplit2 hpre2 hx2
    exact first_inbound_split_unique x x2 post post2 pre pre2 (hsplit.symm.trans hsplit2)
      hpre0 hxin hpre2 hx2
  · rw [GetScanner_of_open ctx V P S dev hopen, hscan _ _ hx]
  · intro ctx2 V2 P2 S2 dev2 hopen2 hfirst
    rw [GetScanner_of_open ctx V P S dev hopen, GetScanner_of_open ctx2 V2 P2 S2 dev2 hopen2,
      hscan _ _ hx, hscan _ _ hfirst]
    rfl

/-- Witness for C2: on the sample device with three outbound endpoints ahead of
inbound endpoints 2, 3 and 4, the three outbound slots are skipped and the
binding is configuration 1, interface 0, endpoint 2, max packet 64, the
endpoint of alternate setting 1. -/
theorem GetScanner_binds_first_inbound_witness :
    ∃ (pre : List Slot) (x : Slot) (post : List Slot) (s : Scanner),
      traversal mixedDesc = pre ++ x :: post ∧
      pre.map (fun y => (y.iface.Alternate, y.ep)) =
        [(0, epOut 1), (0, epOut 2), (1, epOut 1)] ∧
      (x.iface.Alternate, x.ep) = (1, epIn 2) ∧
      post.map (fun y => y.ep) = [epIn 3, epIn 4] ∧
      (GetScanner (hostOf (deviceOf mixedDesc)) 0x0c2e 0x0a07 "").1 =
        Outcome.ret (some s, none) ∧
      s.Info.Config = 1 ∧ s.Info.Interface = 0 ∧ s.Info.Endpoint = 2 ∧
      s.Info.MaxPacketSize = 64 := by
  obtain ⟨pre, x, post, s, hsplit, -, -, huniq, hres, hc, hi, he, hm, -⟩ :=
    GetScanner_binds_first_inbound (hostOf (deviceOf mixedDesc)) 0x0c2e 0x0a07 ""
      (deviceOf mixedDesc) rfl
      ⟨⟨⟨1, [⟨0, [⟨0, 0, 3, 0, 0, [epOut 1, epOut 2]⟩,
                   ⟨0, 1, 3, 0, 0, [epOut 1, epIn 2, epIn 3]⟩]⟩,
              ⟨1, [⟨1, 0, 3, 0, 0, [epIn 4]⟩]⟩]⟩,
        ⟨1, [⟨1, 0, 3, 0, 0, [epIn 4]⟩]⟩, ⟨1, 0, 3, 0, 0, [epIn 4]⟩, epIn 4⟩,
        by decide, by decide⟩
  obtain ⟨hp, hx⟩ := huniq ((traversal mixedDesc).take 3)
    ⟨⟨1, [⟨0, [⟨0, 0, 3, 0, 0, [epOut 1, epOut 2]⟩,
                ⟨0, 1, 3, 0, 0, [epOut 1, epIn 2, epIn 3]⟩]⟩,
           ⟨1, [⟨1, 0, 3, 0, 0, [epIn 4]⟩]⟩]⟩,
      ⟨0, [⟨0, 0, 3, 0, 0, [epOut 1, epOut 2]⟩,
           ⟨0, 1, 3, 0, 0, [epOut 1, epIn 2, epIn 3]⟩]⟩,
      ⟨0, 1, 3, 0, 0, [epOut 1, epIn 2, epIn 3]⟩, epIn 2⟩
    ((traversal mixedDesc).drop 4) (by decide) (by decide) (by decide)
  have hpost : post = (traversal mixedDesc).drop 4 := by
    have h := congrArg (List.drop 4) hsplit
    rw [← hp] at h
    simpa using h.symm
  refine ⟨pre, x, post, s, hsplit, ?_, ?_, ?_, hres, ?_, ?_, ?_, ?_⟩
  · subst hp; decide
  · subst hx; decide
  · subst hpost; decide
  · subst hx; exact hc
  · subst hx; exact hi
  · subst hx; exact he
  · subst hx; exact hm

/-- C2 (counterexample). One descriptor tree whose alternate setting holds two
inbound endpoints.  `Endpoints` is a Go map, so a `range` over it may meet
endpoint 1 first or endpoint 2 first.  The two resolutions bind different
endpoints: the bound tuple is not fixed by the tree, and the second one is not
the first inbound endpoint in descriptor order. -/
theorem GetScanner_revisit_differs :
    sameTree twoInDescA twoInDescB ∧
    resolvedTuple (GetScanner (hostOf (deviceOf twoInDescA)) 0x0c2e 0x0a07 "") =
      some (1, 0, 0, 1) ∧
    resolvedTuple (GetScanner (hostOf (deviceOf twoInDescB)) 0x0c2e 0x0a07 "") =
      some (1, 0, 0, 2) := by
  refine ⟨⟨rfl, rfl, twoInDescA.Configs, List.Perm.refl _, ?_⟩, by decide, by decide⟩
  refine List.Forall₂.cons ⟨rfl, ?_⟩ List.Forall₂.nil
  refine List.Forall₂.cons ⟨rfl, ?_⟩ List.Forall₂.nil
  refine List.Forall₂.cons ⟨rfl, rfl, rfl, rfl, rfl, ?_⟩ List.Forall₂.nil
  exact List.Perm.swap _ _ _

/-- Every field of a successful binding but `Setup` describes the selected
endpoint and its owners, and `Mode` is the table entry of the owning setting;
`Setup` is the `Number` field of the owning setting. -/
theorem scanner_info (dev : gousb.Device) (x : Slot) :
    (x.scanner dev).Device = some dev ∧
    (x.scanner dev).Info.Config = x.cfg.Number ∧
    (x.scanner dev).Info.Interface = x.alt.Number ∧
    (x.scanner dev).Info.Setup = x.iface.Number ∧
    (x.scanner dev).Info.Endpoint = x.ep.Number ∧
    (x.scanner dev).Info.MaxPacketSize = x.ep.MaxPacketSize ∧
    (x.scanner dev).Info.Class = x.iface.Class ∧
    (x.scanner dev).Info.SubClass = x.iface.SubClass ∧
    (x.scanner dev).Info.Protocol = x.iface.Protocol ∧
    (x.scanner dev).Info.Mode =
      (if x.iface.Class = 3 ∧ x.iface.SubClass = 1 ∧ x.iface.Protocol = 1 then
        ScannerModeHIDKeyboardEmulation
      else if x.iface.Class = 3 ∧ x.iface.SubClass = 0 ∧ x.iface.Protocol = 0 then
        ScannerModeHIDDevice
      else if x.iface.Class = 2 ∧ x.iface.SubClass = 2 ∧ x.iface.Protocol = 1 then
        ScannerModeCOMEmulation
      else ScannerModeUnknown) := by
  refine ⟨rfl, ?_, ?_, ?_, ?_, ?_, ?_, ?_, ?_, ?_⟩
  any_goals simp [Slot.scanner, bindScanner, determineMode_keeps]
  simp only [ScannerInfo.determineMode]
  split_ifs <;> simp_all

/-- C3 (the code at the failing input). On the composite sample device the
first inbound endpoint is endpoint 2 of interface 1, alternate setting 0.
GetScanner binds configuration 1, interface 1, endpoint 2, max packet 64,
class (3, 1, 1) and mode HIDKeyboardEmulation, but stores 1, the interface
number, in Info.Setup, while the owning alternate setting is number 0. -/
theorem GetScanner_setup_is_interface_number :
    ((traversal compositeDesc).find? Slot.inbound).map
      (fun x => (x.alt.Number, x.iface.Alternate, x.ep.Number)) = some (1, 0, 2) ∧
    resolvedInfo (GetScanner (hostOf (deviceOf compositeDesc)) 0x0c2e 0x0a01 "") =
      some { Config := 1, Interface := 1, Setup := 1, Endpoint := 2, Class := 3,
             SubClass := 1, Protocol := 1, MaxPacketSize := 64,
             Mode := ScannerModeHIDKeyboardEmulation } := by
  constructor <;> decide

/-- C4 (counterexample). On a device that opens and has no configuration,
GetScanner returns a non-nil empty Scanner together with an error whose message
is the empty string; it does not return a nil binding with a non-blank error. -/
theorem GetScanner_no_endpoint_blank :
    (GetScanner (hostOf (deviceOf emptyDesc)) 0x0c2e 0x0a07 "").1 =
      Outcome.ret (some {}, some (fmtErrorf "")) ∧
    ¬ ∃ e : GoError, e.msg ≠ "" ∧
      (GetScanner (hostOf (deviceOf emptyDesc)) 0x0c2e 0x0a07 "").1 =
        Outcome.ret (none, some e) := by
  refine ⟨rfl, ?_⟩
  rintro ⟨e, _, h⟩
  have h2 : (Outcome.ret ((some {} : Option Scanner), some (fmtErrorf "")) :
      Outcome (Option Scanner × Option GoError)) = Outcome.ret (none, some e) := h
  injection h2 with h3
  injection h3 with h4 _
  cases h4

/-- C4 (amended). For every tree with no inbound endpoint anywhere (no
configurations, or outbound endpoints only) of a device that opens
successfully, GetScanner returns a non-nil error whose message is empty,
together with a zero-valued Scanner: no device handle, every Info field zero,
Mode Unknown. -/
theorem GetScanner_no_inbound (ctx : gousb.Context) (V P : gousb.ID) (S : String)
    (dev : gousb.Device) (hopen : openFor ctx V P S = (some dev, none))
    (hnone : ∀ x ∈ traversal dev.Desc, x.inbound = false) :
    (GetScanner ctx V P S).1 =
      Outcome.ret
        (some { Device := none,
                Info := { Config := 0, Interface := 0, Setup := 0, Endpoint := 0, Class := 0,
                          SubClass := 0, Protocol := 0, MaxPacketSize := 0,
                          Mode := ScannerModeUnknown } },
         some { msg := "" }) := by
  have hfind : (dev.Desc.Configs.flatMap slotsOfConfig).find? Slot.inbound = none := by
    apply List.find?_eq_none.2
    intro x hx
    simpa using hnone x hx
  rw [GetScanner_of_open ctx V P S dev hopen, scanConfigs_eq_find, hfind]
  rfl

/-- Witness for C4: the sample device whose endpoints are all outbound. -/
theorem GetScanner_no_inbound_witness :
    (GetScanner (hostOf (deviceOf outOnlyDesc)) 0x0c2e 0x0a07 "").1 =
      Outcome.ret
        (some { Device := none,
                Info := { Config := 0, Interface := 0, Setup := 0, Endpoint := 0, Class := 0,
                          SubClass := 0, Protocol := 0, MaxPacketSize := 0,
                          Mode := ScannerModeUnknown } },
         some { msg := "" }) :=
  GetScanner_no_inbound (hostOf (deviceOf outOnlyDesc)) 0x0c2e 0x0a07 ""
    (deviceOf outOnlyDesc) rfl (by decide)

/-- C9 (the code at the failing input). The sample device with no
configuration opens (handle 7) on a host with no open handle; GetScanner
reports a failure, hands back a Scanner without device handle, and handle 7 is
still open afterwards: the open handles are not what they were before. -/
theorem GetScanner_failure_leaves_device_open :
    (hostOf (deviceOf emptyDesc)).opened = [] ∧
    (GetScanner (hostOf (deviceOf emptyDesc)) 0x0c2e 0x0a07 "").2.opened = [7] ∧
    (GetScanner (hostOf (deviceOf emptyDesc)) 0x0c2e 0x0a07 "").1 =
      Outcome.ret (some { Device := none, Info := {} }, some (fmtErrorf "")) := by
  refine ⟨rfl, rfl, rfl⟩

/-- On every path on which the open call hands out a device, that device is
open when `GetScanner` is over; no path closes it. -/
theorem GetScanner_opened (ctx : gousb.Context) (V P : gousb.ID) (S : String) :
    (GetScanner ctx V P S).2.opened =
      match (openFor ctx V P S).1 with
      | some d => d.handle :: ctx.opened
      | none => ctx.opened := by
  simp only [GetScanner]
  rcases h : openFor ctx V P S with ⟨d, e⟩
  cases e <;> cases d <;> simp [gousb.Context.noteOpen]
  split <;> rfl

theorem Read_of_opens (s : Scanner) (ep : gousb.InEndpoint) (fuel : Nat)
    (h : s.opensEndpoint ep) : s.Read fuel = readFrom s.Info.Mode ep fuel := by
  obtain ⟨dev, cfg, intf, h1, h2, h3, h4⟩ := h
  simp only [Scanner.Read, h1, h2, h3, h4]

theorem store_length (buf data : List Byte) : (gousb.store buf data).length = buf.length := by
  simp only [gousb.store, List.length_take, List.length_append, List.length_drop]
  omega

theorem store_take (buf data : List Byte) (h : data.length ≤ buf.length) :
    (gousb.store buf data).take data.length = data := by
  simp only [gousb.store, List.take_take]
  rw [Nat.min_eq_left h]
  exact List.take_left data _

/-- C5. For every binding in HIDDevice mode whose config, interface and
endpoint open, if the inbound transfer succeeds with N bytes, 0 < N <= max
packet size, then Read performs exactly one transfer, into a buffer of exactly
max-packet-size bytes, and returns with a nil error exactly the N bytes
received, which are the first N bytes of the buffer. -/
theorem Read_hid_returns_received (s : Scanner) (ep : gousb.InEndpoint) (fuel N : Nat)
    (hopen : s.opensEndpoint ep) (hmode : s.Info.Mode = ScannerModeHIDDevice)
    (herr : (ep.Read 0 ep.Desc.MaxPacketSize).err = none)
    (hn : (ep.Read 0 ep.Desc.MaxPacketSize).n = N)
    (hdata : (ep.Read 0 ep.Desc.MaxPacketSize).data.length = N)
    (hpos : 0 < N) (hle : N ≤ ep.Desc.MaxPacketSize) :
    s.Read fuel =
      ⟨Outcome.ret (some (ep.Read 0 ep.Desc.MaxPacketSize).data, none),
        [ep.Desc.MaxPacketSize]⟩ ∧
    (ep.Read 0 ep.Desc.MaxPacketSize).data =
      (gousb.store (List.replicate ep.Desc.MaxPacketSize 0)
        (ep.Read 0 ep.Desc.MaxPacketSize).data).take N ∧
    (ep.Read 0 ep.Desc.MaxPacketSize).data.length = N := by
  have htake : (gousb.store (List.replicate ep.Desc.MaxPacketSize 0)
      (ep.Read 0 ep.Desc.MaxPacketSize).data).take N =
      (ep.Read 0 ep.Desc.MaxPacketSize).data := by
    have := store_take (List.replicate ep.Desc.MaxPacketSize 0)
      (ep.Read 0 ep.Desc.MaxPacketSize).data (by simpa [hdata] using hle)
    rwa [hdata] at this
  refine ⟨?_, htake.symm, hdata⟩
  rw [Read_of_opens s ep fuel hopen, hmode]
  have hN : N ≠ 0 := by omega
  simp only [readFrom, List.length_replicate, herr, hn, sliceReturn, store_length, htake]
  simp [hN, hle]

/-- Witness for C5: a 12-byte transfer on a 64-byte endpoint. -/
theorem Read_hid_returns_received_witness :
    (scannerOn ScannerModeHIDDevice
        (endpointOf (fun _ _ => delivers [1, 2, 3, 4, 5, 6, 7, 8, 9, 10, 11, 12]))).Read 0 =
      ⟨Outcome.ret (some [1, 2, 3, 4, 5, 6, 7, 8, 9, 10, 11, 12], none), [64]⟩ :=
  (Read_hid_returns_received
    (scannerOn ScannerModeHIDDevice
      (endpointOf (fun _ _ => delivers [1, 2, 3, 4, 5, 6, 7, 8, 9, 10, 11, 12])))
    (endpointOf (fun _ _ => delivers [1, 2, 3, 4, 5, 6, 7, 8, 9, 10, 11, 12])) 0 12
    ⟨_, _, _, rfl, rfl, rfl, rfl⟩ rfl rfl rfl rfl (by decide) (by decide)).1

/-- C6. For every binding in HIDDevice mode whose endpoint opens: if the single
inbound transfer reports zero bytes without error, Read returns no data and the
error "read returned 0 bytes of data"; if the transfer fails, Read returns no
data and the transport error; either way exactly one transfer was made. -/
theorem Read_hid_failures (s : Scanner) (ep : gousb.InEndpoint) (fuel : Nat)
    (hopen : s.opensEndpoint ep) (hmode : s.Info.Mode = ScannerModeHIDDevice) :
    ((ep.Read 0 ep.Desc.MaxPacketSize).err = none →
      (ep.Read 0 ep.Desc.MaxPacketSize).n = 0 →
      s.Read fuel =
        ⟨Outcome.ret (none, some (fmtErrorf "read returned 0 bytes of data")),
          [ep.Desc.MaxPacketSize]⟩) ∧
    (∀ e : GoError, (ep.Read 0 ep.Desc.MaxPacketSize).err = some e →
      s.Read fuel = ⟨Outcome.ret (none, some e), [ep.Desc.MaxPacketSize]⟩) := by
  rw [Read_of_opens s ep fuel hopen, hmode]
  constructor
  · intro herr hn
    simp [readFrom, herr, hn]
  · intro e herr
    simp [readFrom, herr]

/-- Witness for C6: a stalled transfer on the sample endpoint. -/
theorem Read_hid_failures_witness :
    ((endpointOf (fun _ _ => fails ⟨"stall"⟩)).Read 0 64).err = some ⟨"stall"⟩ ∧
    (scannerOn ScannerModeHIDDevice (endpointOf (fun _ _ => fails ⟨"stall"⟩))).Read 0 =
      ⟨Outcome.ret (none, some ⟨"stall"⟩), [64]⟩ :=
  ⟨rfl, (Read_hid_failures
    (scannerOn ScannerModeHIDDevice (endpointOf (fun _ _ => fails ⟨"stall"⟩)))
    (endpointOf (fun _ _ => fails ⟨"stall"⟩)) 0 ⟨_, _, _, rfl, rfl, rfl, rfl⟩ rfl).2
    ⟨"stall"⟩ rfl⟩

/-- C7 (counterexample). A binding in mode Unknown, and one in mode
COMEmulation, whose endpoint opens: Read returns a nil error and an empty,
non-nil payload, having made no transfer. -/
theorem Read_unsupported_mode_succeeds_empty :
    (scannerOn ScannerModeUnknown (endpointOf (fun _ _ => delivers [1, 2, 3]))).Read 0 =
      ⟨Outcome.ret (some [], none), []⟩ ∧
    (scannerOn ScannerModeCOMEmulation (endpointOf (fun _ _ => delivers [1, 2, 3]))).Read 0 =
      ⟨Outcome.ret (some [], none), []⟩ := by
  constructor <;> rfl

/-- C7 (amended). For every binding whose Mode is Unknown or COMEmulation, or
any value other than HIDDevice and HIDKeyboardEmulation, and whose endpoint
opens, Read makes no transfer and returns a nil error with an empty payload. -/
theorem Read_other_mode_empty (s : Scanner) (ep : gousb.InEndpoint) (fuel : Nat)
    (hopen : s.opensEndpoint ep)
    (hmode : s.Info.Mode = ScannerModeUnknown ∨ s.Info.Mode = ScannerModeCOMEmulation ∨
      (s.Info.Mode ≠ ScannerModeHIDDevice ∧ s.Info.Mode ≠ ScannerModeHIDKeyboardEmulation)) :
    s.Read fuel = ⟨Outcome.ret (some [], none), []⟩ := by
  have h : s.Info.Mode ≠ ScannerModeHIDDevice ∧
      s.Info.Mode ≠ ScannerModeHIDKeyboardEmulation := by
    rcases hmode with h | h | h
    · rw [h]; decide
    · rw [h]; decide
    · exact h
  rw [Read_of_opens s ep fuel hopen]
  simp [readFrom, h.1, h.2, sliceReturn]

/-- Witness for C7: the COM-emulation sample binding. -/
theorem Read_other_mode_empty_witness :
    (scannerOn ScannerModeCOMEmulation (endpointOf (fun _ _ => delivers [1, 2, 3]))).Read 5 =
      ⟨Outcome.ret (some [], none), []⟩ :=
  Read_other_mode_empty
    (scannerOn ScannerModeCOMEmulation (endpointOf (fun _ _ => delivers [1, 2, 3])))
    (endpointOf (fun _ _ => delivers [1, 2, 3])) 5 ⟨_, _, _, rfl, rfl, rfl, rfl⟩
    (Or.inr (Or.inl rfl))

theorem readLoop_stops (ep : gousb.InEndpoint) (M : Nat) :
    ∀ (m fuel k : Nat) (buf : List Byte) (tr : List Nat), buf.length = M →
      (∀ j < m, goesOn (ep.Read (k + j) M)) → ¬ goesOn (ep.Read (k + m) M) → m < fuel →
      readLoop ep fuel k buf tr =
        ⟨Outcome.ret (none, some (stopError (ep.Read (k + m) M))),
          tr ++ List.replicate (m + 1) M⟩ := by
  intro m
  induction m with
  | zero =>
    intro fuel k buf tr hlen _ hstop hfuel
    obtain ⟨f, rfl⟩ : ∃ f, fuel = f + 1 := ⟨fuel - 1, by omega⟩
    simp only [Nat.add_zero, goesOn, not_and_or, not_not] at hstop
    rcases herr : (ep.Read k M).err with _ | e
    · have hn : (ep.Read k M).n = 0 := by
        rcases hstop with h | h
        · exact absurd herr h
        · exact h
      simp [readLoop, hlen, herr, hn, stopError, List.replicate]
    · simp [readLoop, hlen, herr, stopError, List.replicate]
  | succ m ih =>
    intro fuel k buf tr hlen hgo hstop hfuel
    obtain ⟨f, rfl⟩ : ∃ f, fuel = f + 1 := ⟨fuel - 1, by omega⟩
    have h0 : goesOn (ep.Read k M) := by simpa using hgo 0 (by omega)
    have hrec := ih f (k + 1) (gousb.store buf (ep.Read k M).data) (tr ++ [M])
      (by rw [store_length, hlen])
      (fun j hj => by
        have := hgo (j + 1) (by omega)
        rwa [show k + (j + 1) = k + 1 + j by omega] at this)
      (by rwa [show k + (m + 1) = k + 1 + m by omega] at hstop)
      (by omega)
    rw [readLoop]
    simp only [hlen, h0.1, h0.2, ne_eq, not_true_eq_false, if_false]
    rw [hrec, show k + 1 + m = k + (m + 1) by omega, List.append_assoc]
    rfl

theorem readLoop_runs (ep : gousb.InEndpoint) (M : Nat) :
    ∀ (fuel k : Nat) (buf : List Byte) (tr : List Nat), buf.length = M →
      (∀ j < fuel, goesOn (ep.Read (k + j) M)) →
      readLoop ep fuel k buf tr = ⟨Outcome.running, tr ++ List.replicate fuel M⟩ := by
  intro fuel
  induction fuel with
  | zero =>
    intro k buf tr _ _
    simp [readLoop]
  | succ f ih =>
    intro k buf tr hlen hgo
    have h0 : goesOn (ep.Read k M) := by simpa using hgo 0 (by omega)
    have hrec := ih (k + 1) (gousb.store buf (ep.Read k M).data) (tr ++ [M])
      (by rw [store_length, hlen])
      (fun j hj => by
        have := hgo (j + 1) (by omega)
        rwa [show k + (j + 1) = k + 1 + j by omega] at this)
    rw [readLoop]
    simp only [hlen, h0.1, h0.2, ne_eq, not_true_eq_false, if_false]
    rw [hrec, List.append_assoc]
    rfl

theorem readLoop_out (ep : gousb.InEndpoint) :
    ∀ (fuel k : Nat) (buf : List Byte) (tr : List Nat),
      (readLoop ep fuel k buf tr).out = Outcome.running ∨
      ∃ e : GoError, (readLoop ep fuel k buf tr).out = Outcome.ret (none, some e) := by
  intro fuel
  induction fuel with
  | zero =>
    intro k buf tr
    exact Or.inl rfl
  | succ f ih =>
    intro k buf tr
    rw [readLoop]
    rcases herr : (ep.Read k buf.length).err with _ | e
    · by_cases hn : (ep.Read k buf.length).n = 0
      · simp [hn]
      · simpa [hn] using ih _ _ _
    · simp

/-- C10. For every binding in HIDKeyboardEmulation mode whose endpoint opens
and every sequence of transfer outcomes: while each transfer succeeds with a
non-zero count Read makes the next one; at the first transfer (number k) that
fails or reports zero bytes it stops, after exactly k + 1 transfers, and
returns no data with the transport error or the zero-byte error; if none of
the first `fuel` transfers stops it, it is still looping after `fuel`
transfers; and no sequence of outcomes makes it return a payload or a nil
error. -/
theorem Read_keyboard_never_payload (s : Scanner) (ep : gousb.InEndpoint) (fuel : Nat)
    (hopen : s.opensEndpoint ep) (hmode : s.Info.Mode = ScannerModeHIDKeyboardEmulation) :
    (∀ k : Nat, (∀ j < k, goesOn (ep.Read j ep.Desc.MaxPacketSize)) →
      ¬ goesOn (ep.Read k ep.Desc.MaxPacketSize) → k < fuel →
      s.Read fuel =
        ⟨Outcome.ret (none, some (stopError (ep.Read k ep.Desc.MaxPacketSize))),
          List.replicate (k + 1) ep.Desc.MaxPacketSize⟩) ∧
    ((∀ j < fuel, goesOn (ep.Read j ep.Desc.MaxPacketSize)) →
      s.Read fuel = ⟨Outcome.running, List.replicate fuel ep.Desc.MaxPacketSize⟩) ∧
    (∀ (data : List Byte) (e : Option GoError),
      (s.Read fuel).out ≠ Outcome.ret (some data, e)) ∧
    (∀ data : Option (List Byte), (s.Read fuel).out ≠ Outcome.ret (data, none)) ∧
    (s.Read fuel).out ≠ Outcome.panic := by
  have hread : s.Read fuel =
      readLoop ep fuel 0 (List.replicate ep.Desc.MaxPacketSize 0) [] := by
    rw [Read_of_opens s ep fuel hopen, hmode]
    simp [readFrom, ScannerModeHIDKeyboardEmulation, ScannerModeHIDDevice]
  refine ⟨?_, ?_, ?_, ?_, ?_⟩
  · intro k hgo hstop hk
    rw [hread]
    have := readLoop_stops ep ep.Desc.MaxPacketSize k fuel 0
      (List.replicate ep.Desc.MaxPacketSize 0) [] (by simp)
      (by simpa using hgo) (by simpa using hstop) hk
    simpa using this
  · intro hgo
    rw [hread]
    have := readLoop_runs ep ep.Desc.MaxPacketSize fuel 0
      (List.replicate ep.Desc.MaxPacketSize 0) [] (by simp) (by simpa using hgo)
    simpa using this
  · intro data e
    rw [hread]
    rcases readLoop_out ep fuel 0 (List.replicate ep.Desc.MaxPacketSize 0) [] with h | ⟨e2, h⟩
    · rw [h]; simp
    · rw [h]; simp
  · intro data
    rw [hread]
    rcases readLoop_out ep fuel 0 (List.replicate ep.Desc.MaxPacketSize 0) [] with h | ⟨e2, h⟩
    · rw [h]; simp
    · rw [h]; simp
  · rw [hread]
    rcases readLoop_out ep fuel 0 (List.replicate ep.Desc.MaxPacketSize 0) [] with h | ⟨e2, h⟩
    · rw [h]; simp
    · rw [h]; simp

/-- Witness for C10: two reports of three bytes, then a zero-byte report. -/
theorem Read_keyboard_never_payload_witness :
    (scannerOn ScannerModeHIDKeyboardEmulation
        (endpointOf (fun k _ => if k < 2 then delivers [4, 5, 6] else delivers []))).Read 10 =
      ⟨Outcome.ret (none, some (fmtErrorf "read returned 0 bytes of data")), [64, 64, 64]⟩ :=
  (Read_keyboard_never_payload
    (scannerOn ScannerModeHIDKeyboardEmulation
      (endpointOf (fun k _ => if k < 2 then delivers [4, 5, 6] else delivers [])))
    (endpointOf (fun k _ => if k < 2 then delivers [4, 5, 6] else delivers [])) 10
    ⟨_, _, _, rfl, rfl, rfl, rfl⟩ rfl).1 2 (by decide) (by decide) (by decide)

theorem foldl_catalogStep (devs : List gousb.Device) :
    ∀ (acc : List DeviceDesc) (c : gousb.Context),
      devs.foldl catalogStep (acc, c) =
        (acc ++ devs.map entryOf, devs.foldl (fun c d => d.Close c) c) := by
  induction devs with
  | nil => intro acc c; simp
  | cons d rest ih =>
    intro acc c
    simp only [List.foldl_cons, List.map_cons]
    rw [show catalogStep (acc, c) d = (acc ++ [entryOf d], d.Close c) from rfl, ih]
    simp

/-- C8. For every sequence of devices the host enumeration returns without
error, GetUsbDevices returns a nil error and a list of the same length and
order, whose entry i carries the descriptor of device i and the strings its
three lookups returned, whatever their errors: a failed lookup, which returns
the empty string, leaves the field empty and the device stays in the list.
When the enumeration fails, GetUsbDevices returns that error and an empty list. -/
theorem GetUsbDevices_lists_every_device (ctx : gousb.Context) :
    (ctx.OpenDevices.2 = none →
      ∃ list : List DeviceDesc, (GetUsbDevices ctx).1 = (list, none) ∧
        list.length = ctx.OpenDevices.1.length ∧
        ∀ (i : Nat) (d : gousb.Device), ctx.OpenDevices.1[i]? = some d →
          ∃ dd : DeviceDesc, list[i]? = some dd ∧ dd.DeviceDesc = d.Desc ∧
            dd.ManufacturerDesc = d.Manufacturer.1 ∧ dd.ProductDesc = d.Product.1 ∧
            dd.Serial = d.SerialNumber.1 ∧
            (∀ e, d.Manufacturer = ("", some e) → dd.ManufacturerDesc = "") ∧
            (∀ e, d.Product = ("", some e) → dd.ProductDesc = "") ∧
            (∀ e, d.SerialNumber = ("", some e) → dd.Serial = "")) ∧
    (∀ e : GoError, ctx.OpenDevices.2 = some e → (GetUsbDevices ctx).1 = ([], some e)) := by
  constructor
  · intro herr
    refine ⟨ctx.OpenDevices.1.map entryOf, ?_, by simp, ?_⟩
    · simp [GetUsbDevices, herr, foldl_catalogStep]
    · intro i d hd
      refine ⟨entryOf d, by simp [hd], rfl, rfl, rfl, rfl, ?_, ?_, ?_⟩
      · intro e he
        simp [entryOf, he]
      · intro e he
        simp [entryOf, he]
      · intro e he
        simp [entryOf, he]
  · intro e herr
    simp [GetUsbDevices, herr]

/-- Witness for C8: two devices, the manufacturer lookup of the second fails;
both are listed, in order, the second with an empty manufacturer. -/
theorem GetUsbDevices_lists_every_device_witness :
    twoDeviceHost.OpenDevices.2 = none ∧
    ∃ list : List DeviceDesc, (GetUsbDevices twoDeviceHost).1 = (list, none) ∧
      list.length = 2 ∧
      ∃ dd : DeviceDesc, list[1]? = some dd ∧ dd.DeviceDesc = twoInDescA ∧
        dd.ManufacturerDesc = "" ∧ dd.ProductDesc = "Voyager" := by
  refine ⟨rfl, ?_⟩
  obtain ⟨list, hres, hlen, hall⟩ := (GetUsbDevices_lists_every_device twoDeviceHost).1 rfl
  obtain ⟨dd, h1, h11, h12, h13, -⟩ := hall 1 (mutedDevice 8 twoInDescA) rfl
  exact ⟨list, hres, hlen, dd, h1, h11, h12, h13⟩

theorem foldl_close_opened (devs : List gousb.Device) :
    ∀ c : gousb.Context, (devs.foldl (fun c d => d.Close c) c).opened =
      devs.foldl (fun l d => l.erase d.handle) c.opened := by
  induction devs with
  | nil => intro c; rfl
  | cons d rest ih => intro c; simp only [List.foldl_cons]; rw [ih]; rfl

theorem foldl_erase_handles (devs : List gousb.Device) (rest : List Nat) :
    devs.foldl (fun l d => l.erase d.handle) (devs.map (fun d => d.handle) ++ rest) = rest := by
  induction devs with
  | nil => rfl
  | cons d ds ih => simpa using ih

/-- No device is left open by `GetUsbDevices`: on both paths every device the
enumeration handed out is closed again. -/
theorem GetUsbDevices_closes_all (ctx : gousb.Context) :
    (GetUsbDevices ctx).2.opened = ctx.opened := by
  rcases herr : ctx.OpenDevices.2 with _ | e
  · simp [GetUsbDevices, herr, foldl_catalogStep, foldl_close_opened,
      gousb.Context.noteOpenAll, foldl_erase_handles]
  · simp [GetUsbDevices, herr, foldl_close_opened, gousb.Context.noteOpenAll,
      foldl_erase_handles]

end usb
